import Mathlib

/-!
Shallow embedding of the Ozlo sleepbuds firmware downloader
(src/firmware_parser.py, src/firmware_downloader.py, src/main.py).

XML documents are modelled as element trees; `xml.etree.ElementTree.fromstring`
is library code, so it appears as an oracle `String → Option XmlElem` where
`none` models a raised parse exception.  Python's unbounded `int` is `Int`;
`int(str)` is modelled by `pyInt` returning `none` where Python raises
`ValueError`.  The filesystem is a map from path to optional byte content
(`none` = absent or unreadable), the network an oracle from URL to optional
byte content (`none` = any transport-level failure).  The MD5 digest is
library code as well and enters as an oracle `Bytes → String`.
-/

/-- Bytes of a file, abstractly. -/
abbrev Bytes := List Nat

/-- An XML element: tag, attributes in document order, children in document
order.  Models `xml.etree.ElementTree.Element` as used by the parser. -/
inductive XmlElem where
  | mk : String → List (String × String) → List XmlElem → XmlElem

/-- Tag of an element. -/
def XmlElem.tag : XmlElem → String
  | .mk t _ _ => t

/-- Attribute list of an element. -/
def XmlElem.attrs : XmlElem → List (String × String)
  | .mk _ a _ => a

/-- Children of an element. -/
def XmlElem.children : XmlElem → List XmlElem
  | .mk _ _ c => c

/-- Attribute lookup: first binding of the name, if any.  Models the
attribute dictionary of an `Element` (well-formed XML has no duplicate
attribute names, so first-match equals dict lookup). -/
def lookupAttr (attrs : List (String × String)) (name : String) : Option String :=
  (attrs.find? (fun p => p.1 == name)).map (fun p => p.2)

/-- Models `elem.get(name, default)`. -/
def XmlElem.get (e : XmlElem) (name default : String) : String :=
  (lookupAttr e.attrs name).getD default

/-- The children of `e` bearing tag `t`, in document order: what the loops
`for child in elem: if child.tag == t:` visit. -/
def taggedChildren (e : XmlElem) (t : String) : List XmlElem :=
  e.children.filter (fun c => c.tag == t)

/-- Python whitespace accepted by `int(...)` around the digits. -/
def isPySpace (c : Char) : Bool :=
  c == ' ' || c == '\t' || c == '\n' || c == '\r' || c == '\x0b' || c == '\x0c'

/-- Strip leading and trailing whitespace from a character list. -/
def pyStrip (l : List Char) : List Char :=
  ((l.dropWhile isPySpace).reverse.dropWhile isPySpace).reverse

/-- Digit run of a Python integer literal: digits with single underscores
allowed only between digits.  `acc` is the value so far, `lastWasDigit`
whether the previous character was a digit. -/
def pyDigits (acc : Nat) (lastWasDigit : Bool) : List Char → Option Nat
  | [] => if lastWasDigit then some acc else none
  | c :: rest =>
      if c.isDigit then pyDigits (acc * 10 + (c.toNat - 48)) true rest
      else if c == '_' && lastWasDigit then pyDigits acc false rest
      else none

/-- Models Python `int(s)`: strip whitespace, optional sign, nonempty digit
run; `none` where Python raises `ValueError`. -/
def pyInt (s : String) : Option Int :=
  match pyStrip s.data with
  | [] => none
  | c :: rest =>
      if c == '-' then (pyDigits 0 false rest).map (fun n => -(n : Int))
      else if c == '+' then (pyDigits 0 false rest).map (fun n => (n : Int))
      else (pyDigits 0 false (c :: rest)).map (fun n => (n : Int))

/-- Models the `try: int(...) except ValueError: 0` pattern of
`_parse_image`. -/
def pyIntOr0 (s : String) : Int :=
  match pyInt s with
  | some n => n
  | none => 0

/-- Dataclass `Image` of firmware_parser.py. -/
structure Image where
  filename : String
  md5 : String
  nxh_version : String
  l_bud_version : String
  r_bud_version : String
  revision : String
  build_id : String
  length : Int
  target : Int
  subid : Int
deriving DecidableEq

/-- Dataclass `Release` of firmware_parser.py. -/
structure Release where
  channel : String
  date : String
  httphost : String
  urlpath : String
  revision : String
  images : List Image
deriving DecidableEq

/-- Dataclass `Hardware` of firmware_parser.py. -/
structure Hardware where
  revision : String
  releases : List Release
deriving DecidableEq

/-- Dataclass `Device` of firmware_parser.py. -/
structure Device where
  id : String
  productname : String
  hardware : List Hardware
deriving DecidableEq

/-- Dataclass `FirmwareIndex` of firmware_parser.py. -/
structure FirmwareIndex where
  revision : String
  devices : List Device
deriving DecidableEq

/-- `FirmwareIndex()` with the dataclass defaults, as returned on a parse
exception. -/
def FirmwareIndex.empty : FirmwareIndex := ⟨"", []⟩

/-- `FirmwareParser._parse_image`. -/
def parse_image (e : XmlElem) : Image :=
  { filename := e.get "FILENAME" ""
    md5 := e.get "MD5" ""
    nxh_version := e.get "NXH_VERSION" ""
    l_bud_version := e.get "L_BUD_VERSION" ""
    r_bud_version := e.get "R_BUD_VERSION" ""
    revision := e.get "REVISION" ""
    build_id := e.get "BUILD_ID" ""
    length := pyIntOr0 (e.get "LENGTH" "0")
    target := pyIntOr0 (e.get "TARGET" "0")
    subid := pyIntOr0 (e.get "SUBID" "0") }

/-- `FirmwareParser._parse_release`: attributes plus the `IMAGE`-tagged
children, parsed in document order. -/
def parse_release (e : XmlElem) : Release :=
  { channel := e.get "CHANNEL" ""
    date := e.get "DATE" ""
    httphost := e.get "HTTPHOST" ""
    urlpath := e.get "URLPATH" ""
    revision := e.get "REVISION" ""
    images := (taggedChildren e "IMAGE").map parse_image }

/-- `FirmwareParser._parse_hardware`. -/
def parse_hardware (e : XmlElem) : Hardware :=
  { revision := e.get "REVISION" ""
    releases := (taggedChildren e "RELEASE").map parse_release }

/-- `FirmwareParser._parse_device`. -/
def parse_device (e : XmlElem) : Device :=
  { id := e.get "ID" ""
    productname := e.get "PRODUCTNAME" ""
    hardware := (taggedChildren e "HARDWARE").map parse_hardware }

/-- `FirmwareParser._parse_root`. -/
def parse_root (root : XmlElem) : FirmwareIndex :=
  { revision := root.get "REVISION" ""
    devices := (taggedChildren root "DEVICE").map parse_device }

/-- `FirmwareParser.parse_from_string`: `ET.fromstring` is the oracle
`fromstring`, `none` modelling the raised exception that the `except`
branch turns into `FirmwareIndex()`. -/
def parse_from_string (fromstring : String → Option XmlElem) (xml_content : String) :
    FirmwareIndex :=
  match fromstring xml_content with
  | some root => parse_root root
  | none => FirmwareIndex.empty

/-- Filesystem model: path to readable byte content, `none` when the path
has no readable file. -/
abbrev FileSys := String → Option Bytes

/-- Network oracle for binary downloads: `none` models any transport-level
failure (connection error, timeout, non-success status surfaced by
`urllib`). -/
abbrev Net := String → Option Bytes

/-- Writing a file at a path (direct to final path, as the source does). -/
def fsWrite (fs : FileSys) (p : String) (c : Bytes) : FileSys :=
  fun q => if q = p then some c else fs q

/-- Removing a file at a path; removing an absent path leaves the map with
`none` there, matching the guarded `os.remove`. -/
def fsRemove (fs : FileSys) (p : String) : FileSys :=
  fun q => if q = p then none else fs q

/-- `FirmwareDownloader.construct_url`: literal f-string concatenation. -/
def construct_url (release : Release) (image : Image) : String :=
  "https://" ++ release.httphost ++ release.urlpath ++ image.filename

/-- Python `b.startswith("/")`: the first character is the separator. -/
def startsWithSlash (s : String) : Bool := s.data.head? == some '/'

/-- Python `path.endswith("/")`: the last character is the separator. -/
def endsWithSlash (s : String) : Bool := s.data.getLast? == some '/'

/-- One step of `posixpath.join`: an absolute component discards everything
accumulated so far, otherwise the separator is inserted unless the
accumulator is empty or already ends in one. -/
def ospJoin2 (path b : String) : String :=
  if startsWithSlash b then b
  else if path = "" || endsWithSlash path then path ++ b
  else path ++ "/" ++ b

/-- `os.path.join(a, *parts)` on a POSIX system. -/
def ospJoin (a : String) (parts : List String) : String :=
  parts.foldl ospJoin2 a

/-- `FirmwareDownloader.construct_output_path`:
`os.path.join(base, channel, date, revision, filename)`. -/
def construct_output_path (base : String) (release : Release) (image : Image) : String :=
  ospJoin base [release.channel, release.date, release.revision, image.filename]

/-- `FirmwareDownloader.calculate_md5`: digest of the file's bytes via the
digest oracle, empty string when the file cannot be read. -/
def calculate_md5 (md5Hex : Bytes → String) (fs : FileSys) (file_path : String) : String :=
  match fs file_path with
  | some c => md5Hex c
  | none => ""

/-- Python `str.lower()` on digest strings: lowercase every character. -/
def pyLower (s : String) : String := ⟨s.data.map Char.toLower⟩

/-- `FirmwareDownloader.validate_md5`: case-insensitive comparison of the
computed and expected digests (`calculated.lower() == expected_md5.lower()`). -/
def validate_md5 (md5Hex : Bytes → String) (fs : FileSys) (file_path expected_md5 : String) :
    Bool :=
  pyLower (calculate_md5 md5Hex fs file_path) == pyLower expected_md5

/-- `FirmwareDownloader.download_file`: on success the full content is
written to the output path and `true` returned; on any exception the
partially written file is removed and `false` returned. -/
def download_file (net : Net) (fs : FileSys) (url output_path : String) : FileSys × Bool :=
  match net url with
  | some c => (fsWrite fs output_path c, true)
  | none => (fsRemove fs output_path, false)

/-- Outcome reported for one image by the loop body of `download_release`
(lines of console output condensed to a tag). -/
inductive ImageOutcome where
  | alreadySatisfied
  | downloadedValid
  | downloadedInvalid
  | downloadFailed
deriving DecidableEq

/-- Lines 78-87 of firmware_downloader.py: one download attempt followed by
the post-download digest check.  The `Nat` is the number of network
requests made (always 1 here). -/
def attempt_download (md5Hex : Bytes → String) (net : Net) (fs : FileSys)
    (url path expected : String) : FileSys × ImageOutcome × Nat :=
  match download_file net fs url path with
  | (fs2, true) =>
      if validate_md5 md5Hex fs2 path expected then (fs2, .downloadedValid, 1)
      else (fs2, .downloadedInvalid, 1)
  | (fs2, false) => (fs2, .downloadFailed, 1)

/-- Loop body of `FirmwareDownloader.download_release` for one image:
skip when an existing file validates, otherwise remove any stale file and
attempt one download. -/
def process_image (md5Hex : Bytes → String) (net : Net) (base : String)
    (release : Release) (image : Image) (fs : FileSys) : FileSys × ImageOutcome × Nat :=
  let url := construct_url release image
  let path := construct_output_path base release image
  match fs path with
  | some _ =>
      if validate_md5 md5Hex fs path image.md5 then (fs, .alreadySatisfied, 0)
      else attempt_download md5Hex net (fsRemove fs path) url path image.md5
  | none => attempt_download md5Hex net fs url path image.md5

/-- `FirmwareDownloader.download_release`: the per-image procedure over all
images of the release in document order, accumulating outcomes. -/
def download_release (md5Hex : Bytes → String) (net : Net) (base : String)
    (release : Release) (fs : FileSys) : FileSys × List (ImageOutcome × Nat) :=
  release.images.foldl
    (fun acc image =>
      ((process_image md5Hex net base release image acc.1).1,
        acc.2 ++ [((process_image md5Hex net base release image acc.1).2.1,
                   (process_image md5Hex net base release image acc.1).2.2)]))
    (fs, [])

/-- `FirmwareDownloader.download_all`: devices, then hardware revisions,
then releases, in document order. -/
def download_all (md5Hex : Bytes → String) (net : Net) (base : String)
    (index : FirmwareIndex) (fs : FileSys) : FileSys × List (ImageOutcome × Nat) :=
  index.devices.foldl
    (fun accD device =>
      device.hardware.foldl
        (fun accH hw =>
          hw.releases.foldl
            (fun accR release =>
              ((download_release md5Hex net base release accR.1).1,
                accR.2 ++ (download_release md5Hex net base release accR.1).2))
            accH)
        accD)
    (fs, [])

/-- `FirmwareDownloader.download_index_xml`: decoded body on success, empty
string on any transport error.  `netText` is the oracle for the text
fetch. -/
def download_index_xml (netText : String → Option String) (url : String) : String :=
  match netText url with
  | some s => s
  | none => ""

/-- Result of one run of `main`: the process exit code and the per-image
outcomes of the traversal (empty when the run aborts before it). -/
structure RunResult where
  exitCode : Nat
  outcomes : List (ImageOutcome × Nat)
deriving DecidableEq

/-- `main` of src/main.py: fetch the index, abort with exit code 1 on an
empty fetch result or an index with no devices, otherwise download
everything and exit 0. -/
def main_run (md5Hex : Bytes → String) (net : Net) (netText : String → Option String)
    (fromstring : String → Option XmlElem) (indexUrl outputDir : String)
    (fs : FileSys) : RunResult :=
  let xml := download_index_xml netText indexUrl
  if xml = "" then ⟨1, []⟩
  else
    let index := parse_from_string fromstring xml
    if index.devices.isEmpty then ⟨1, []⟩
    else ⟨0, (download_all md5Hex net outputDir index fs).2⟩

/-- Images of one release (count). -/
def Release.imageCount (r : Release) : Nat := r.images.length

/-- Images below one hardware revision. -/
def Hardware.imageCount (h : Hardware) : Nat := (h.releases.map Release.imageCount).sum

/-- Images below one device. -/
def Device.imageCount (d : Device) : Nat := (d.hardware.map Hardware.imageCount).sum

/-- Images of the whole index: how many per-image attempts a full traversal
makes. -/
def FirmwareIndex.imageCount (i : FirmwareIndex) : Nat :=
  (i.devices.map Device.imageCount).sum

/-- Recognized `DEVICE` elements of the source document. -/
def srcDeviceCount (root : XmlElem) : Nat := (taggedChildren root "DEVICE").length

/-- Recognized `HARDWARE` elements of the source document (children of
recognized `DEVICE` elements). -/
def srcHardwareCount (root : XmlElem) : Nat :=
  ((taggedChildren root "DEVICE").map (fun d => (taggedChildren d "HARDWARE").length)).sum

/-- Recognized `RELEASE` elements of the source document. -/
def srcReleaseCount (root : XmlElem) : Nat :=
  ((taggedChildren root "DEVICE").map (fun d =>
    ((taggedChildren d "HARDWARE").map (fun h => (taggedChildren h "RELEASE").length)).sum)).sum

/-- Recognized `IMAGE` elements of the source document. -/
def srcImageCount (root : XmlElem) : Nat :=
  ((taggedChildren root "DEVICE").map (fun d =>
    ((taggedChildren d "HARDWARE").map (fun h =>
      ((taggedChildren h "RELEASE").map (fun r => (taggedChildren r "IMAGE").length)).sum)).sum)).sum

/-- Hardware revisions of a parsed index. -/
def parsedHardwareCount (i : FirmwareIndex) : Nat :=
  (i.devices.map (fun d => d.hardware.length)).sum

/-- Releases of a parsed index. -/
def parsedReleaseCount (i : FirmwareIndex) : Nat :=
  (i.devices.map (fun d => (d.hardware.map (fun h => h.releases.length)).sum)).sum

/-- Images of a parsed index. -/
def parsedImageCount (i : FirmwareIndex) : Nat :=
  (i.devices.map (fun d =>
    (d.hardware.map (fun h => (h.releases.map (fun r => r.images.length)).sum)).sum)).sum

/-- Sample `IMAGE` element with no attributes at all. -/
def imgElemBare : XmlElem := .mk "IMAGE" [] []

/-- Sample `IMAGE` element whose integer attributes are unparseable. -/
def imgElemBad : XmlElem :=
  .mk "IMAGE"
    [("FILENAME", "fw.bin"), ("LENGTH", "not-a-number"), ("TARGET", "0x1"), ("SUBID", "")] []

/-- Sample `RELEASE` element with two images and one unrecognized child. -/
def relElemEx : XmlElem :=
  .mk "RELEASE" [("CHANNEL", "stable")] [imgElemBare, .mk "JUNK" [] [], imgElemBad]

/-- Sample `HARDWARE` element. -/
def hwElemEx : XmlElem := .mk "HARDWARE" [("REVISION", "rev1")] [relElemEx, .mk "NOTE" [] []]

/-- Sample `DEVICE` element. -/
def devElemEx : XmlElem := .mk "DEVICE" [("ID", "d1"), ("PRODUCTNAME", "Buds")] [hwElemEx]

/-- Sample root document with an unrecognized child next to the device. -/
def rootEx : XmlElem := .mk "INDEX" [("REVISION", "7")] [devElemEx, .mk "EXTRA" [] []]

/-- An oracle that rejects every input, as `ET.fromstring` does on malformed
XML. -/
def fromstringFail : String → Option XmlElem := fun _ => none

/-- An oracle returning the sample document for every input. -/
def fromstringEx : String → Option XmlElem := fun _ => some rootEx


/-- A digest oracle returning an uppercase constant, used by witnesses. -/
def md5HexEx : Bytes → String := fun _ => "ABC"

/-- A filesystem with the same small readable file at every path. -/
def fsAll7 : FileSys := fun _ => some [7]

/-- A filesystem with no readable file anywhere. -/
def fsNone : FileSys := fun _ => none

/-- A network on which every transfer fails. -/
def netFail : Net := fun _ => none

/-- A network delivering the same two bytes for every URL. -/
def netOk : Net := fun _ => some [1, 2]

/-- An image with every dataclass default. -/
def emptyImage : Image := ⟨"", "", "", "", "", "", "", 0, 0, 0⟩

/-- The image of the specification's path-construction example. -/
def imgFw : Image := { emptyImage with filename := "fw.bin", md5 := "abc" }

/-- An image whose expected digest matches nothing the sample oracle
produces. -/
def imgStale : Image := { emptyImage with filename := "fw.bin", md5 := "ff" }

/-- An image with an empty `MD5` attribute. -/
def imgNoMd5 : Image := { emptyImage with filename := "fw.bin" }

/-- An image whose filename is an absolute path. -/
def imgEvil : Image := { emptyImage with filename := "/etc/evil" }

/-- The release of the specification's path-construction example. -/
def relStable : Release := ⟨"stable", "2024-01-01", "host.example", "/fw/", "v2", [imgFw]⟩

/-- C6: for every well-formed document, the parsed index has exactly as many
devices, hardware revisions, releases and images as the source has
recognized `DEVICE`/`HARDWARE`/`RELEASE`/`IMAGE` elements, the devices keep
document order (witnessed by their `ID` attributes), and a child with an
unrecognized tag at any of the four hierarchy levels is silently skipped:
removing it does not change the parse. -/
theorem C6_parse_counts_and_skip (root : XmlElem) :
    (parse_root root).devices.length = srcDeviceCount root
  ∧ parsedHardwareCount (parse_root root) = srcHardwareCount root
  ∧ parsedReleaseCount (parse_root root) = srcReleaseCount root
  ∧ parsedImageCount (parse_root root) = srcImageCount root
  ∧ (parse_root root).devices.map (fun d => d.id)
      = (taggedChildren root "DEVICE").map (fun e => e.get "ID" "")
  ∧ (∀ t a l1 e l2, e.tag ≠ "DEVICE" →
      parse_root (.mk t a (l1 ++ e :: l2)) = parse_root (.mk t a (l1 ++ l2)))
  ∧ (∀ t a l1 e l2, e.tag ≠ "HARDWARE" →
      parse_device (.mk t a (l1 ++ e :: l2)) = parse_device (.mk t a (l1 ++ l2)))
  ∧ (∀ t a l1 e l2, e.tag ≠ "RELEASE" →
      parse_hardware (.mk t a (l1 ++ e :: l2)) = parse_hardware (.mk t a (l1 ++ l2)))
  ∧ (∀ t a l1 e l2, e.tag ≠ "IMAGE" →
      parse_release (.mk t a (l1 ++ e :: l2)) = parse_release (.mk t a (l1 ++ l2))) := by
  refine ⟨?_, ?_, ?_, ?_, ?_, ?_, ?_, ?_, ?_⟩
  · simp [parse_root, srcDeviceCount]
  · simp [parsedHardwareCount, srcHardwareCount, parse_root, parse_device, List.map_map,
      Function.comp_def]
  · simp [parsedReleaseCount, srcReleaseCount, parse_root, parse_device, parse_hardware,
      List.map_map, Function.comp_def]
  · simp [parsedImageCount, srcImageCount, parse_root, parse_device, parse_hardware,
      parse_release, List.map_map, Function.comp_def]
  · simp [parse_root, parse_device, List.map_map, Function.comp_def]
  · intro t a l1 e l2 h
    simp [parse_root, taggedChildren, XmlElem.children, XmlElem.attrs, XmlElem.get,
      List.filter_append, List.filter_cons, h]
  · intro t a l1 e l2 h
    simp [parse_device, taggedChildren, XmlElem.children, XmlElem.attrs, XmlElem.get,
      List.filter_append, List.filter_cons, h]
  · intro t a l1 e l2 h
    simp [parse_hardware, taggedChildren, XmlElem.children, XmlElem.attrs, XmlElem.get,
      List.filter_append, List.filter_cons, h]
  · intro t a l1 e l2 h
    simp [parse_release, taggedChildren, XmlElem.children, XmlElem.attrs, XmlElem.get,
      List.filter_append, List.filter_cons, h]

/-- Witness for C6 at a concrete document: counts match and dropping an
unrecognized child changes nothing. -/
theorem C6_parse_counts_and_skip_witness :
    (parse_root rootEx).devices.length = srcDeviceCount rootEx
  ∧ parsedImageCount (parse_root rootEx) = srcImageCount rootEx
  ∧ parse_root (.mk "INDEX" [] [.mk "EXTRA" [] []]) = parse_root (.mk "INDEX" [] []) :=
  ⟨(C6_parse_counts_and_skip rootEx).1,
   (C6_parse_counts_and_skip rootEx).2.2.2.1,
   (C6_parse_counts_and_skip rootEx).2.2.2.2.2.1 "INDEX" [] [] (.mk "EXTRA" [] []) []
     (by decide)⟩

/-- C7: every string attribute of an `IMAGE` element that is absent from the
source defaults to the empty string, and each of the integer attributes
`LENGTH`, `TARGET`, `SUBID` parses to 0 when absent or when its value is not
a parseable integer; `parse_image` is a total function, so no exception
escapes and the surrounding parse never aborts. -/
theorem C7_image_attribute_defaults (e : XmlElem) :
    (lookupAttr e.attrs "FILENAME" = none → (parse_image e).filename = "")
  ∧ (lookupAttr e.attrs "MD5" = none → (parse_image e).md5 = "")
  ∧ (lookupAttr e.attrs "NXH_VERSION" = none → (parse_image e).nxh_version = "")
  ∧ (lookupAttr e.attrs "L_BUD_VERSION" = none → (parse_image e).l_bud_version = "")
  ∧ (lookupAttr e.attrs "R_BUD_VERSION" = none → (parse_image e).r_bud_version = "")
  ∧ (lookupAttr e.attrs "REVISION" = none → (parse_image e).revision = "")
  ∧ (lookupAttr e.attrs "BUILD_ID" = none → (parse_image e).build_id = "")
  ∧ (lookupAttr e.attrs "LENGTH" = none → (parse_image e).length = 0)
  ∧ (lookupAttr e.attrs "TARGET" = none → (parse_image e).target = 0)
  ∧ (lookupAttr e.attrs "SUBID" = none → (parse_image e).subid = 0)
  ∧ (∀ s, lookupAttr e.attrs "LENGTH" = some s → pyInt s = none → (parse_image e).length = 0)
  ∧ (∀ s, lookupAttr e.attrs "TARGET" = some s → pyInt s = none → (parse_image e).target = 0)
  ∧ (∀ s, lookupAttr e.attrs "SUBID" = some s → pyInt s = none → (parse_image e).subid = 0) := by
  refine ⟨?_, ?_, ?_, ?_, ?_, ?_, ?_, ?_, ?_, ?_, ?_, ?_, ?_⟩
  · intro h; simp [parse_image, XmlElem.get, h]
  · intro h; simp [parse_image, XmlElem.get, h]
  · intro h; simp [parse_image, XmlElem.get, h]
  · intro h; simp [parse_image, XmlElem.get, h]
  · intro h; simp [parse_image, XmlElem.get, h]
  · intro h; simp [parse_image, XmlElem.get, h]
  · intro h; simp [parse_image, XmlElem.get, h]
  · intro h; simp [parse_image, XmlElem.get, h]; decide
  · intro h; simp [parse_image, XmlElem.get, h]; decide
  · intro h; simp [parse_image, XmlElem.get, h]; decide
  · intro s h hs; simp [parse_image, XmlElem.get, h, pyIntOr0, hs]
  · intro s h hs; simp [parse_image, XmlElem.get, h, pyIntOr0, hs]
  · intro s h hs; simp [parse_image, XmlElem.get, h, pyIntOr0, hs]

/-- Witness for C7: the attribute-free `IMAGE` element gets every default,
and unparseable `LENGTH`/`TARGET`/`SUBID` values all yield 0. -/
theorem C7_image_attribute_defaults_witness :
    (parse_image imgElemBare).filename = ""
  ∧ (parse_image imgElemBare).md5 = ""
  ∧ (parse_image imgElemBare).length = 0
  ∧ (parse_image imgElemBad).length = 0
  ∧ (parse_image imgElemBad).target = 0
  ∧ (parse_image imgElemBad).subid = 0 :=
  ⟨(C7_image_attribute_defaults imgElemBare).1 rfl,
   (C7_image_attribute_defaults imgElemBare).2.1 rfl,
   (C7_image_attribute_defaults imgElemBare).2.2.2.2.2.2.2.1 rfl,
   (C7_image_attribute_defaults imgElemBad).2.2.2.2.2.2.2.2.2.2.1 "not-a-number" rfl (by decide),
   (C7_image_attribute_defaults imgElemBad).2.2.2.2.2.2.2.2.2.2.2.1 "0x1" rfl (by decide),
   (C7_image_attribute_defaults imgElemBad).2.2.2.2.2.2.2.2.2.2.2.2 "" rfl (by decide)⟩

/-- C1: on a malformed XML input (the `ET.fromstring` oracle raises,
modelled as `none`) `parse_from_string` yields an index with no devices —
never a crash, the embedding is total — and the top-level run with such an
index aborts with exit code 1, using no partial index; on a structurally
valid input the parse succeeds as `parse_root` of the tree, an empty device
list being an allowed degraded result. -/
theorem C1_parse_failure_aborts (fromstring : String → Option XmlElem) (s : String) :
    (fromstring s = none →
      (parse_from_string fromstring s).devices = []
      ∧ ∀ (md5Hex : Bytes → String) (net : Net) (netText : String → Option String)
          (indexUrl outputDir : String) (fs : FileSys),
          netText indexUrl = some s → s ≠ "" →
          (main_run md5Hex net netText fromstring indexUrl outputDir fs).exitCode = 1)
  ∧ (∀ root, fromstring s = some root →
      parse_from_string fromstring s = parse_root root) := by
  constructor
  · intro h
    constructor
    · simp [parse_from_string, h, FirmwareIndex.empty]
    · intro md5Hex net netText indexUrl outputDir fs hnet hs
      simp [main_run, download_index_xml, hnet, hs, parse_from_string, h, FirmwareIndex.empty]
  · intro root h
    simp [parse_from_string, h]

/-- Witness for C1 at concrete oracles: the malformed branch yields zero
devices and exit code 1, the well-formed branch yields the parsed tree. -/
theorem C1_parse_failure_aborts_witness :
    (parse_from_string fromstringFail "<bad").devices = []
  ∧ (main_run (fun _ => "") (fun _ => none) (fun _ => some "<bad") fromstringFail
      "https://example/index.xml" "./firmware_downloads" (fun _ => none)).exitCode = 1
  ∧ parse_from_string fromstringEx "<INDEX></INDEX>" = parse_root rootEx :=
  ⟨((C1_parse_failure_aborts fromstringFail "<bad").1 rfl).1,
   ((C1_parse_failure_aborts fromstringFail "<bad").1 rfl).2 (fun _ => "") (fun _ => none)
     (fun _ => some "<bad") "https://example/index.xml" "./firmware_downloads" (fun _ => none)
     rfl (by decide),
   (C1_parse_failure_aborts fromstringEx "<INDEX></INDEX>").2 rootEx rfl⟩

/-- Every call of the download-and-verify block makes exactly one network
request, whatever its outcome. -/
theorem attempt_download_requests (md5Hex : Bytes → String) (net : Net) (fs : FileSys)
    (url path expected : String) :
    (attempt_download md5Hex net fs url path expected).2.2 = 1 := by
  cases h : net url with
  | none => simp [attempt_download, download_file, h]
  | some c =>
      simp only [attempt_download, download_file, h]
      split <;> rfl

/-- Length of the outcome list accumulated by a fold that appends what each
step emits. -/
theorem foldl_emit_length {α β : Type}
    (g : FileSys × List β → α → FileSys × List β) (k : α → Nat)
    (hg : ∀ p x, ((g p x).2).length = p.2.length + k x) :
    ∀ (l : List α) (p : FileSys × List β),
      ((l.foldl g p).2).length = p.2.length + (l.map k).sum := by
  intro l
  induction l with
  | nil => intro p; simp
  | cons x xs ih =>
      intro p
      rw [List.foldl_cons, ih, hg]
      simp [List.sum_cons]
      omega

/-- `download_release` emits one outcome per image of the release: no image
failure stops the loop. -/
theorem download_release_outcomes_length (md5Hex : Bytes → String) (net : Net)
    (base : String) (release : Release) (fs : FileSys) :
    (download_release md5Hex net base release fs).2.length = release.images.length := by
  have h := foldl_emit_length
    (fun acc image =>
      ((process_image md5Hex net base release image acc.1).1,
        acc.2 ++ [((process_image md5Hex net base release image acc.1).2.1,
                   (process_image md5Hex net base release image acc.1).2.2)]))
    (fun _ => 1) (by intro p x; simp) release.images (fs, [])
  simpa [download_release] using h

/-- `download_all` emits one outcome per image of the whole index. -/
theorem download_all_outcomes_length (md5Hex : Bytes → String) (net : Net) (base : String)
    (index : FirmwareIndex) (fs : FileSys) :
    (download_all md5Hex net base index fs).2.length = index.imageCount := by
  have hR : ∀ (p : FileSys × List (ImageOutcome × Nat)) (release : Release),
      (((fun accR release =>
          ((download_release md5Hex net base release accR.1).1,
            accR.2 ++ (download_release md5Hex net base release accR.1).2)) p release).2).length
        = p.2.length + Release.imageCount release := by
    intro p release
    simp [download_release_outcomes_length, Release.imageCount]
  have hH : ∀ (p : FileSys × List (ImageOutcome × Nat)) (hw : Hardware),
      (((fun (accH : FileSys × List (ImageOutcome × Nat)) (hw : Hardware) =>
          hw.releases.foldl
            (fun accR release =>
              ((download_release md5Hex net base release accR.1).1,
                accR.2 ++ (download_release md5Hex net base release accR.1).2)) accH) p hw).2).length
        = p.2.length + Hardware.imageCount hw := by
    intro p hw
    simpa [Hardware.imageCount] using
      foldl_emit_length
        (fun accR release =>
          ((download_release md5Hex net base release accR.1).1,
            accR.2 ++ (download_release md5Hex net base release accR.1).2))
        Release.imageCount hR hw.releases p
  have hD : ∀ (p : FileSys × List (ImageOutcome × Nat)) (device : Device),
      (((fun (accD : FileSys × List (ImageOutcome × Nat)) (device : Device) =>
          device.hardware.foldl
            (fun accH hw =>
              hw.releases.foldl
                (fun accR release =>
                  ((download_release md5Hex net base release accR.1).1,
                    accR.2 ++ (download_release md5Hex net base release accR.1).2)) accH)
            accD) p device).2).length
        = p.2.length + Device.imageCount device := by
    intro p device
    simpa [Device.imageCount] using
      foldl_emit_length
        (fun accH hw =>
          hw.releases.foldl
            (fun accR release =>
              ((download_release md5Hex net base release accR.1).1,
                accR.2 ++ (download_release md5Hex net base release accR.1).2)) accH)
        Hardware.imageCount hH device.hardware p
  simpa [download_all, FirmwareIndex.imageCount] using
    foldl_emit_length
      (fun accD device =>
        device.hardware.foldl
          (fun accH hw =>
            hw.releases.foldl
              (fun accR release =>
                ((download_release md5Hex net base release accR.1).1,
                  accR.2 ++ (download_release md5Hex net base release accR.1).2)) accH)
          accD)
      Device.imageCount hD index.devices (fs, [])

/-- C2: when the transfer for an image fails at the transport level, the
destination file is absent afterwards (any partial write is deleted) and the
failure is reported for that image; when the transfer completes but the
digest of the written file differs from `Image.md5` case-insensitively, the
mismatch is reported, the written file is kept, and exactly one request was
made (no retry); and the release loop reports one outcome per image, so no
single failure aborts the traversal. -/
theorem C2_failure_isolation (md5Hex : Bytes → String) (net : Net) (base : String)
    (release : Release) (image : Image) (fs : FileSys) :
    (net (construct_url release image) = none →
      (attempt_download md5Hex net fs (construct_url release image)
          (construct_output_path base release image) image.md5).1
          (construct_output_path base release image) = none
      ∧ (attempt_download md5Hex net fs (construct_url release image)
          (construct_output_path base release image) image.md5).2.1
          = ImageOutcome.downloadFailed)
  ∧ (∀ c : Bytes, net (construct_url release image) = some c →
      pyLower (md5Hex c) ≠ pyLower image.md5 →
      (attempt_download md5Hex net fs (construct_url release image)
          (construct_output_path base release image) image.md5).1
          (construct_output_path base release image) = some c
      ∧ (attempt_download md5Hex net fs (construct_url release image)
          (construct_output_path base release image) image.md5).2.1
          = ImageOutcome.downloadedInvalid
      ∧ (attempt_download md5Hex net fs (construct_url release image)
          (construct_output_path base release image) image.md5).2.2 = 1)
  ∧ (download_release md5Hex net base release fs).2.length = release.images.length := by
  refine ⟨?_, ?_, download_release_outcomes_length md5Hex net base release fs⟩
  · intro h
    constructor
    · simp [attempt_download, download_file, h, fsRemove]
    · simp [attempt_download, download_file, h]
  · intro c h hne
    refine ⟨?_, ?_, ?_⟩
    · simp [attempt_download, download_file, h, validate_md5, calculate_md5, fsWrite, hne]
    · simp [attempt_download, download_file, h, validate_md5, calculate_md5, fsWrite, hne]
    · exact attempt_download_requests md5Hex net fs _ _ _

/-- Witness for C2 at a failing and a succeeding network: failure deletes
and reports, a digest mismatch keeps the file, and the loop covers every
image. -/
theorem C2_failure_isolation_witness :
    (attempt_download md5HexEx netFail fsAll7 (construct_url relStable imgFw)
        (construct_output_path "./fd" relStable imgFw) imgFw.md5).2.1
      = ImageOutcome.downloadFailed
  ∧ (attempt_download md5HexEx netOk fsAll7 (construct_url relStable imgStale)
        (construct_output_path "./fd" relStable imgStale) imgStale.md5).1
        (construct_output_path "./fd" relStable imgStale) = some [1, 2]
  ∧ (attempt_download md5HexEx netOk fsAll7 (construct_url relStable imgStale)
        (construct_output_path "./fd" relStable imgStale) imgStale.md5).2.1
      = ImageOutcome.downloadedInvalid
  ∧ (download_release md5HexEx netFail "./fd" relStable fsAll7).2.length
      = relStable.images.length :=
  ⟨((C2_failure_isolation md5HexEx netFail "./fd" relStable imgFw fsAll7).1 rfl).2,
   ((C2_failure_isolation md5HexEx netOk "./fd" relStable imgStale fsAll7).2.1 [1, 2] rfl
      (by decide)).1,
   ((C2_failure_isolation md5HexEx netOk "./fd" relStable imgStale fsAll7).2.1 [1, 2] rfl
      (by decide)).2.1,
   (C2_failure_isolation md5HexEx netFail "./fd" relStable imgFw fsAll7).2.2⟩

/-- C3: when the destination file exists and its digest equals `Image.md5`
case-insensitively, the per-image procedure reports the image as already
satisfied, changes no file, and consults the network oracle not at all (its
result is independent of the oracle and its request count is 0). -/
theorem C3_valid_file_skips_network (md5Hex : Bytes → String) (net : Net) (base : String)
    (release : Release) (image : Image) (fs : FileSys) (c : Bytes)
    (hex : fs (construct_output_path base release image) = some c)
    (hmd5 : pyLower (md5Hex c) = pyLower image.md5) :
    process_image md5Hex net base release image fs = (fs, ImageOutcome.alreadySatisfied, 0)
    ∧ ∀ net2 : Net, process_image md5Hex net2 base release image fs
        = process_image md5Hex net base release image fs := by
  have key : ∀ net3 : Net, process_image md5Hex net3 base release image fs
      = (fs, ImageOutcome.alreadySatisfied, 0) := by
    intro net3
    simp [process_image, hex, validate_md5, calculate_md5, hmd5]
  exact ⟨key net, fun net2 => (key net2).trans (key net).symm⟩

/-- Witness for C3: an uppercase computed digest satisfies a lowercase
expected digest with no network request. -/
theorem C3_valid_file_skips_network_witness :
    process_image md5HexEx netFail "./fd" relStable imgFw fsAll7
      = (fsAll7, ImageOutcome.alreadySatisfied, 0) :=
  (C3_valid_file_skips_network md5HexEx netFail "./fd" relStable imgFw fsAll7 [7] rfl
    (by decide)).1

/-- C4: when the destination file exists but its digest differs from
`Image.md5`, the per-image procedure deletes the stale file and then runs
the download block on the filesystem without it, making exactly one download
attempt. -/
theorem C4_stale_file_redownloaded (md5Hex : Bytes → String) (net : Net) (base : String)
    (release : Release) (image : Image) (fs : FileSys) (c : Bytes)
    (hex : fs (construct_output_path base release image) = some c)
    (hmd5 : pyLower (md5Hex c) ≠ pyLower image.md5) :
    process_image md5Hex net base release image fs
      = attempt_download md5Hex net
          (fsRemove fs (construct_output_path base release image))
          (construct_url release image) (construct_output_path base release image) image.md5
    ∧ (process_image md5Hex net base release image fs).2.2 = 1 := by
  have h1 : process_image md5Hex net base release image fs
      = attempt_download md5Hex net
          (fsRemove fs (construct_output_path base release image))
          (construct_url release image) (construct_output_path base release image)
          image.md5 := by
    simp [process_image, hex, validate_md5, calculate_md5, hmd5]
  refine ⟨h1, ?_⟩
  rw [h1]
  exact attempt_download_requests md5Hex net _ _ _ _

/-- Witness for C4: a stale file leads to one download attempt. -/
theorem C4_stale_file_redownloaded_witness :
    (process_image md5HexEx netFail "./fd" relStable imgStale fsAll7).2.2 = 1 :=
  (C4_stale_file_redownloaded md5HexEx netFail "./fd" relStable imgStale fsAll7 [7] rfl
    (by decide)).2

/-- C5: the run exits with the failure code 1 when the index fetch fails at
the transport level (the fetch yields the empty string, with no retry) or
when the parsed index has zero devices; otherwise it exits with the success
code 0 after attempting every image of the index, one outcome per image,
whatever the individual outcomes were. -/
theorem C5_run_exit_codes (md5Hex : Bytes → String) (net : Net)
    (netText : String → Option String) (fromstring : String → Option XmlElem)
    (indexUrl outputDir : String) (fs : FileSys) :
    (netText indexUrl = none →
      (main_run md5Hex net netText fromstring indexUrl outputDir fs).exitCode = 1)
  ∧ ((parse_from_string fromstring (download_index_xml netText indexUrl)).devices.isEmpty
        = true →
      (main_run md5Hex net netText fromstring indexUrl outputDir fs).exitCode = 1)
  ∧ (download_index_xml netText indexUrl ≠ "" →
      (parse_from_string fromstring (download_index_xml netText indexUrl)).devices.isEmpty
        = false →
      (main_run md5Hex net netText fromstring indexUrl outputDir fs).exitCode = 0
      ∧ (main_run md5Hex net netText fromstring indexUrl outputDir fs).outcomes.length
          = (parse_from_string fromstring (download_index_xml netText indexUrl)).imageCount) := by
  refine ⟨?_, ?_, ?_⟩
  · intro h
    simp [main_run, download_index_xml, h]
  · intro h
    by_cases hxml : download_index_xml netText indexUrl = ""
    · simp [main_run, hxml]
    · simp [main_run, hxml, h]
  · intro h1 h2
    constructor
    · simp [main_run, h1, h2]
    · simp [main_run, h1, h2, download_all_outcomes_length]

/-- Witness for C5: a dead network aborts with exit code 1; a fetched and
parsed sample document exits 0 with one outcome for each of its two
images. -/
theorem C5_run_exit_codes_witness :
    (main_run md5HexEx netFail (fun _ => none) fromstringEx "u" "./fd" fsAll7).exitCode = 1
  ∧ (main_run md5HexEx netFail (fun _ => some "<doc>") fromstringEx "u" "./fd"
      fsAll7).exitCode = 0
  ∧ (main_run md5HexEx netFail (fun _ => some "<doc>") fromstringEx "u" "./fd"
      fsAll7).outcomes.length
      = (parse_from_string fromstringEx (download_index_xml (fun _ => some "<doc>") "u")).imageCount :=
  ⟨(C5_run_exit_codes md5HexEx netFail (fun _ => none) fromstringEx "u" "./fd" fsAll7).1 rfl,
   ((C5_run_exit_codes md5HexEx netFail (fun _ => some "<doc>") fromstringEx "u" "./fd"
      fsAll7).2.2 (by decide) (by decide)).1,
   ((C5_run_exit_codes md5HexEx netFail (fun _ => some "<doc>") fromstringEx "u" "./fd"
      fsAll7).2.2 (by decide) (by decide)).2⟩

/-- A string with a nonempty right part of an append is nonempty. -/
theorem append_ne_empty_right (a b : String) (hb : b ≠ "") : a ++ b ≠ "" := by
  intro h
  have hd := congrArg String.data h
  rw [String.data_append] at hd
  exact hb (String.ext (List.append_eq_nil.mp hd).2)

/-- Appending a nonempty string not ending in the separator yields a string
not ending in the separator. -/
theorem endsWithSlash_append (a b : String) (hb : b ≠ "") (hbe : endsWithSlash b = false) :
    endsWithSlash (a ++ b) = false := by
  unfold endsWithSlash at hbe ⊢
  rw [String.data_append, List.getLast?_append_of_ne_nil _ (fun h => hb (String.ext h))]
  exact hbe

/-- The first character of an append with a nonempty left part is the left
part's first character. -/
theorem startsWithSlash_append (a b : String) (ha : a ≠ "") :
    startsWithSlash (a ++ b) = startsWithSlash a := by
  unfold startsWithSlash
  rw [String.data_append]
  cases hd : a.data with
  | nil => exact absurd (String.ext hd) ha
  | cons c l => simp

/-- The regular step of `posixpath.join`: a relative component is appended
behind an inserted separator when the accumulator is nonempty and does not
already end in one. -/
theorem ospJoin2_normal (p b : String) (hp : p ≠ "") (hpe : endsWithSlash p = false)
    (hbs : startsWithSlash b = false) : ospJoin2 p b = p ++ "/" ++ b := by
  simp [ospJoin2, hbs, hp, hpe]

/-- The discarding step of `posixpath.join`: an absolute component replaces
everything accumulated so far. -/
theorem ospJoin2_absolute (p b : String) (hb : startsWithSlash b = true) :
    ospJoin2 p b = b := by
  simp [ospJoin2, hb]

/-- C8: the download URL is the literal concatenation
`https:// + httpHost + urlPath + filename` with no inserted slash or
escaping, and for components in normal form (nonempty, no leading or
trailing separator) the destination path is exactly the four-level nesting
`baseDir/channel/date/releaseRevision/filename`; at the specification's
example values the path therefore ends with `stable/2024-01-01/v2/fw.bin`. -/
theorem C8_url_and_output_path (base : String) (release : Release) (image : Image)
    (hb : base ≠ "") (hbe : endsWithSlash base = false)
    (hc : release.channel ≠ "") (hcs : startsWithSlash release.channel = false)
    (hce : endsWithSlash release.channel = false)
    (hd : release.date ≠ "") (hds : startsWithSlash release.date = false)
    (hde : endsWithSlash release.date = false)
    (hr : release.revision ≠ "") (hrs : startsWithSlash release.revision = false)
    (hre : endsWithSlash release.revision = false)
    (hfs : startsWithSlash image.filename = false) :
    construct_url release image
      = "https://" ++ release.httphost ++ release.urlpath ++ image.filename
    ∧ construct_output_path base release image
      = base ++ "/" ++ release.channel ++ "/" ++ release.date ++ "/" ++ release.revision
          ++ "/" ++ image.filename := by
  constructor
  · rfl
  · show ospJoin2 (ospJoin2 (ospJoin2 (ospJoin2 base release.channel) release.date)
      release.revision) image.filename = _
    rw [ospJoin2_normal base release.channel hb hbe hcs,
      ospJoin2_normal _ release.date (append_ne_empty_right _ _ hc)
        (endsWithSlash_append _ _ hc hce) hds,
      ospJoin2_normal _ release.revision (append_ne_empty_right _ _ hd)
        (endsWithSlash_append _ _ hd hde) hrs,
      ospJoin2_normal _ image.filename (append_ne_empty_right _ _ hr)
        (endsWithSlash_append _ _ hr hre) hfs]

/-- Witness for C8 at the specification's example values. -/
theorem C8_url_and_output_path_witness :
    construct_url relStable imgFw
      = "https://" ++ relStable.httphost ++ relStable.urlpath ++ imgFw.filename
    ∧ construct_output_path "./fd" relStable imgFw
      = "./fd" ++ "/" ++ relStable.channel ++ "/" ++ relStable.date ++ "/"
          ++ relStable.revision ++ "/" ++ imgFw.filename :=
  C8_url_and_output_path "./fd" relStable imgFw (by decide) (by decide) (by decide)
    (by decide) (by decide) (by decide) (by decide) (by decide) (by decide) (by decide)
    (by decide) (by decide)

/-- C9: the destination path is not always under the base directory — an
image filename that is an absolute path makes `os.path.join` discard every
preceding component, so the path equals the filename alone; with the base
directory `./firmware_downloads` and filename `/etc/evil` the result is a
path that is not `./firmware_downloads` followed by anything. -/
theorem C9_absolute_filename_escapes_base (base : String) (release : Release) (image : Image)
    (h : startsWithSlash image.filename = true) :
    construct_output_path base release image = image.filename
    ∧ ∀ rest : String,
        construct_output_path "./firmware_downloads" relStable imgEvil
          ≠ "./firmware_downloads" ++ rest := by
  constructor
  · show ospJoin2 (ospJoin2 (ospJoin2 (ospJoin2 base release.channel) release.date)
      release.revision) image.filename = _
    exact ospJoin2_absolute _ _ h
  · intro rest heq
    have h1 : construct_output_path "./firmware_downloads" relStable imgEvil
        = "/etc/evil" := by decide
    rw [h1] at heq
    have h2 := congrArg startsWithSlash heq
    rw [startsWithSlash_append _ _ (by decide)] at h2
    exact absurd h2 (by decide)

/-- Witness for C9: the absolute filename `/etc/evil` is returned verbatim
as the destination path. -/
theorem C9_absolute_filename_escapes_base_witness :
    construct_output_path "./fd" relStable imgEvil = imgEvil.filename :=
  (C9_absolute_filename_escapes_base "./fd" relStable imgEvil (by decide)).1

/-- C10: `calculate_md5` returns the empty string exactly on a failed read,
and `validate_md5` compares case-insensitively; for an image whose expected
digest is the empty string, validation therefore succeeds precisely when the
digest computation fails and fails whenever the file is readable (the digest
oracle never produces an empty hex string), so a readable file with an empty
expected digest is re-downloaded on every run. -/
theorem C10_empty_expected_digest (md5Hex : Bytes → String) (fs : FileSys) (p : String)
    (hmd5 : ∀ c : Bytes, pyLower (md5Hex c) ≠ "") :
    (∀ c : Bytes, fs p = some c → calculate_md5 md5Hex fs p = md5Hex c)
  ∧ (fs p = none → calculate_md5 md5Hex fs p = "")
  ∧ (validate_md5 md5Hex fs p "" = true ↔ fs p = none)
  ∧ (∀ (net : Net) (base : String) (release : Release) (image : Image) (c : Bytes),
      image.md5 = "" →
      fs (construct_output_path base release image) = some c →
      (process_image md5Hex net base release image fs).2.2 = 1) := by
  refine ⟨?_, ?_, ?_, ?_⟩
  · intro c h
    simp [calculate_md5, h]
  · intro h
    simp [calculate_md5, h]
  · have hp0 : pyLower "" = "" := rfl
    cases h : fs p with
    | none => simp [validate_md5, calculate_md5, h, hp0]
    | some c => simp [validate_md5, calculate_md5, h, hmd5 c, hp0]
  · intro net base release image c him hsc
    have hp0 : pyLower "" = "" := rfl
    simp [process_image, hsc, validate_md5, calculate_md5, him, hp0, hmd5 c,
      attempt_download_requests]

/-- Witness for C10: with no readable file the empty expected digest
validates; with a readable one it does not and one download attempt is
made. -/
theorem C10_empty_expected_digest_witness :
    validate_md5 md5HexEx fsNone "p" "" = true
  ∧ calculate_md5 md5HexEx fsAll7 "p" = md5HexEx [7]
  ∧ (process_image md5HexEx netFail "./fd" relStable imgNoMd5 fsAll7).2.2 = 1 := by
  have hne : ∀ c : Bytes, pyLower (md5HexEx c) ≠ "" := by
    intro c
    show pyLower "ABC" ≠ ""
    decide
  exact ⟨(C10_empty_expected_digest md5HexEx fsNone "p" hne).2.2.1.mpr rfl,
    (C10_empty_expected_digest md5HexEx fsAll7 "p" hne).1 [7] rfl,
    (C10_empty_expected_digest md5HexEx fsAll7 "p" hne).2.2.2 netFail
      "./fd" relStable imgNoMd5 [7] rfl rfl⟩
